import Mathlib

/-!
Verification of the IcePanel → Mermaid diagram generator (`src/main.py`).

The script is embedded shallowly: decoded JSON bodies become the inductive
`Json` below (JSON `null` and Python `None` are the same value, as `json.loads`
maps `null` to `None`); the dynamic Python operations used by the script
(`d[k]`, `d.get(k, default)`, `x in d`, truthiness, `or`) become explicit
functions, returning `Except PyErr _` at the places where the Python code can
raise; the module-level caches (`model_objects`, `diagram_cache`) and the HTTP
responses are passed explicitly, and each embedded fetching function also
returns the number of HTTP requests it performed.
-/

namespace IcePanel

/-- A decoded JSON value / dynamic Python value. Objects keep their key order
(Python dicts preserve insertion order). -/
inductive Json where
  | null
  | bool (b : Bool)
  | num (n : Int)
  | str (s : String)
  | arr (xs : List Json)
  | obj (kvs : List (String × Json))

/-- Python exception kind (message kept as a plain string). -/
abbrev PyErr := String

/-- Ordered-dict lookup. -/
def lookupD : List (String × Json) → String → Option Json
  | [], _ => none
  | (k, v) :: rest, key => if k = key then some v else lookupD rest key

/-- Generic ordered-dict insertion: `d[k] = v` replaces in place, else appends
(Python dict assignment keeps the original position of an existing key). -/
def assocSet {α : Type} : List (String × α) → String → α → List (String × α)
  | [], k, v => [(k, v)]
  | (k', v') :: rest, k, v =>
    if k' = k then (k, v) :: rest else (k', v') :: assocSet rest k v

/-- Generic ordered-dict lookup. -/
def assocGet {α : Type} : List (String × α) → String → Option α
  | [], _ => none
  | (k', v') :: rest, k => if k' = k then some v' else assocGet rest k

/-- Python truthiness of a JSON value. -/
def Json.truthy : Json → Bool
  | .null => false
  | .bool b => b
  | .num n => n != 0
  | .str s => s ≠ ""
  | .arr xs => ¬xs.isEmpty
  | .obj kvs => ¬kvs.isEmpty

def Json.isObj : Json → Bool
  | .obj _ => true
  | _ => false

def Json.isNull : Json → Bool
  | .null => true
  | _ => false

def Json.isArr : Json → Bool
  | .arr _ => true
  | _ => false

/-- Lookup a key in a JSON value, `none` when the value is not an object. -/
def Json.lookup : Json → String → Option Json
  | .obj kvs, k => lookupD kvs k
  | _, _ => none

/-- Values of a JSON object, in key order (`dict.values()`). -/
def Json.values : Json → List Json
  | .obj kvs => kvs.map Prod.snd
  | _ => []

/-- Python `==` between a JSON value and a string. -/
def Json.eqStr : Json → String → Bool
  | .str s', s => s' = s
  | _, _ => false

mutual

/-- Python `==` between two JSON values (like-typed scalars and structural
comparison on containers; this covers every comparison the script performs). -/
def Json.beq : Json → Json → Bool
  | .null, .null => true
  | .bool a, .bool b => a == b
  | .num a, .num b => a == b
  | .str a, .str b => a == b
  | .arr xs, .arr ys => Json.beqList xs ys
  | .obj xs, .obj ys => Json.beqObj xs ys
  | _, _ => false

def Json.beqList : List Json → List Json → Bool
  | [], [] => true
  | x :: xs, y :: ys => Json.beq x y && Json.beqList xs ys
  | _, _ => false

def Json.beqObj : List (String × Json) → List (String × Json) → Bool
  | [], [] => true
  | (k1, v1) :: xs, (k2, v2) :: ys => k1 == k2 && Json.beq v1 v2 && Json.beqObj xs ys
  | _, _ => false

end

/-- Association list keyed by dynamic values (the `model_objects` cache, keyed
by whatever id value was passed in). -/
def lookupJ : List (Json × Json) → Json → Option Json
  | [], _ => none
  | (k, v) :: rest, key => if Json.beq k key then some v else lookupJ rest key

def assocSetJ : List (Json × Json) → Json → Json → List (Json × Json)
  | [], k, v => [(k, v)]
  | (k', v') :: rest, k, v =>
    if Json.beq k' k then (k, v) :: rest else (k', v') :: assocSetJ rest k v

/-- Substring test, used for Python `needle in s` on strings. -/
def substrCheck (needle s : String) : Bool :=
  if needle = "" then true else (s.splitOn needle).length ≥ 2

/-- Python `key in container` for a string key: key membership on dicts,
element equality on lists, substring on strings, `TypeError` otherwise. -/
def pyContains (key : String) : Json → Except PyErr Bool
  | .obj kvs => .ok (lookupD kvs key).isSome
  | .arr xs => .ok (xs.any (fun j => j.eqStr key))
  | .str s => .ok (substrCheck key s)
  | _ => .error "TypeError: argument of type is not iterable"

/-- Python `container[key]` for a string key: `KeyError` when missing,
`TypeError` on non-dicts. -/
def pyIndex : Json → String → Except PyErr Json
  | .obj kvs, k =>
    match lookupD kvs k with
    | some v => .ok v
    | none => .error "KeyError"
  | _, _ => .error "TypeError: indices must be integers"

/-- Python `d.get(k, default)`: `AttributeError` when `d` is not a dict. -/
def pyGetD : Json → String → Json → Except PyErr Json
  | .obj kvs, k, d => .ok ((lookupD kvs k).getD d)
  | _, _, _ => .error "AttributeError: no attribute get"

/-- A value used where Python requires a `str` (e.g. `name.replace(...)`):
`AttributeError` otherwise. -/
def asStr : Json → Except PyErr String
  | .str s => .ok s
  | _ => .error "AttributeError: not a str"

/-- Python `a or b`. -/
def jor (a b : Json) : Json :=
  if a.truthy then a else b

mutual

/-- Python `repr` of a JSON value (display only, used in f-strings). -/
def Json.pyRepr : Json → String
  | .null => "None"
  | .bool true => "True"
  | .bool false => "False"
  | .num n => toString n
  | .str s => "'" ++ s ++ "'"
  | .arr xs => "[" ++ Json.pyReprList xs ++ "]"
  | .obj kvs => "\x7b" ++ Json.pyReprObj kvs ++ "\x7d"

def Json.pyReprList : List Json → String
  | [] => ""
  | [x] => Json.pyRepr x
  | x :: xs => Json.pyRepr x ++ ", " ++ Json.pyReprList xs

def Json.pyReprObj : List (String × Json) → String
  | [] => ""
  | [(k, v)] => "'" ++ k ++ "': " ++ Json.pyRepr v
  | (k, v) :: kvs => "'" ++ k ++ "': " ++ Json.pyRepr v ++ ", " ++ Json.pyReprObj kvs

end

/-- Python `str` of a JSON value, as interpolated by f-strings. -/
def Json.pyStr : Json → String
  | .str s => s
  | j => Json.pyRepr j

/-! ## `create_file_name` (src/main.py lines 334-337) -/

/-- Python `str.rstrip()`: remove trailing whitespace. -/
def pyRstrip (s : String) : String :=
  String.mk ((s.data.reverse.dropWhile Char.isWhitespace).reverse)

/-- `create_file_name`: keep alphanumerics (modelled over ASCII `isalnum`),
space, period and underscore, strip trailing whitespace, append the
extension. -/
def create_file_name (filename : String) (ext : String) : String :=
  let safe := String.mk (filename.data.filter
    (fun c => c.isAlphanum || c == ' ' || c == '.' || c == '_'))
  pyRstrip safe ++ "." ++ ext

/-- Per the claim's words (for comparison with `create_file_name`): the name
with every character outside alphanumerics/space/period/underscore removed —
all characters inside that set kept — with a period and the extension
appended. -/
def claimFileName (filename : String) (ext : String) : String :=
  String.mk (filename.data.filter
    (fun c => c.isAlphanum || c == ' ' || c == '.' || c == '_')) ++ "." ++ ext

/-! ## `get_model_object` (src/main.py lines 144-165)

The module-level cache `model_objects` is passed and returned explicitly; the
HTTP layer is a function from the requested id to the decoded response body
(the code never inspects the status code here). The last component of the
result counts the HTTP requests performed by the call. -/

def unknownSentinel : Json :=
  Json.obj [("id", Json.null), ("name", Json.str "Unknown"), ("type", Json.str "unknown")]

def fetchFailedSentinel (id : Json) : Json :=
  Json.obj [("id", id), ("name", Json.str "Unknown Model Object"), ("type", Json.str "unknown")]

def getModelObject (cache : List (Json × Json)) (id : Json) (resp : Json → Json) :
    Except PyErr (Json × List (Json × Json) × Nat) :=
  match lookupJ cache id with
  | some v => .ok (v, cache, 0)
  | none =>
    if id.isNull then .ok (unknownSentinel, cache, 0)
    else
      let body := resp id
      match pyContains "modelObject" body with
      | .error e => .error e
      | .ok true =>
        match pyIndex body "modelObject" with
        | .error e => .error e
        | .ok mo => .ok (mo, assocSetJ cache id mo, 1)
      | .ok false =>
        match pyContains "id" body with
        | .error e => .error e
        | .ok false =>
          let mo := fetchFailedSentinel id
          .ok (mo, assocSetJ cache id mo, 1)
        | .ok true => .ok (body, assocSetJ cache id body, 1)

/-! ## `get_diagram_data` (src/main.py lines 169-275)

The primary diagram fetch and the four sub-resource fetches are passed as
explicit responses; `diagram_cache` is passed in (the function reads it at the
top but — as in the source — never writes to it). The result is the returned
value (`none` models Python's `return None` on a non-200 primary response),
the cache as left by the call, and the number of HTTP requests performed. -/

/-- One HTTP response: status code and decoded JSON body. -/
structure HttpResp where
  status : Nat
  body : Json

/-- Lines 215-222 (the `elif`/`else` arms of the relationship probe): take
`data["relationships"]` when `"relationships" in data`, otherwise leave the
relationships unchanged (the list and fallthrough arms only `pass`/log). -/
def relProbeElif (data rel : Json) : Except PyErr Json :=
  match pyContains "relationships" data with
  | .error e => .error e
  | .ok true => pyIndex data "relationships"
  | .ok false => .ok rel

/-- Lines 210-222: when no relationships were found yet, probe
`data["diagramContent"]["relationships"]` (only when `diagramContent` is a
dict), else `data["relationships"]`. -/
def relProbe (data rel : Json) : Except PyErr Json :=
  if rel.truthy then .ok rel
  else
    match pyContains "diagramContent" data with
    | .error e => .error e
    | .ok true =>
      match pyIndex data "diagramContent" with
      | .error e => .error e
      | .ok dc =>
        if dc.isObj then pyGetD dc "relationships" (Json.arr [])
        else relProbeElif data rel
    | .ok false => relProbeElif data rel

/-- Lines 224-233: on the `/relationships` sub-resource, a list body replaces
the relationships wholesale; a dict body contributes its `relationships` key
if present. -/
def relEndpointAdjust (suffix : String) (data rel : Json) : Json :=
  if suffix = "/relationships" then
    match data with
    | .arr xs => .arr xs
    | .obj kvs =>
      match lookupD kvs "relationships" with
      | some v => v
      | none => rel
    | _ => rel
  else rel

/-- Lines 238-246: drill into `data` along `keys`; a missing `"objects"` key
on a dict is skipped (`pass`), any other failure invalidates the path. The
boolean is Python's `valid_path`. -/
def drill (t : Json) : List String → Json × Bool
  | [] => (t, true)
  | k :: ks =>
    match t with
    | .obj kvs =>
      match lookupD kvs k with
      | some v => drill v ks
      | none => if k = "objects" then drill (Json.obj kvs) ks else (Json.obj kvs, false)
    | _ => (t, false)

/-- Lines 248-250: adopt the drilled value as the objects map when the path
was valid, the value is a non-empty dict, and no objects were found yet. -/
def objAdopt (keys : List String) (data objects : Json) : Json :=
  let td := drill data keys
  if td.2 && td.1.isObj && td.1.truthy && !objects.truthy then td.1 else objects

/-- Lines 252-255: on the `/objects` sub-resource, a dict body becomes the
objects map when none was found, and may also contribute relationships. -/
def objEndpointAdjust (suffix : String) (data objects rel : Json) : Json × Json :=
  if suffix = "/objects" && !objects.truthy then
    match data with
    | .obj kvs =>
      let rel' :=
        if !rel.truthy && (lookupD kvs "relationships").isSome then
          (lookupD kvs "relationships").getD Json.null
        else rel
      (Json.obj kvs, rel')
    | _ => (objects, rel)
  else (objects, rel)

/-- One iteration of the sub-resource loop (lines 203-258), without the
final break test. A non-200 response leaves the state unchanged. -/
def subStep (resp : HttpResp) (suffix : String) (keys : List String)
    (objects rel : Json) : Except PyErr (Json × Json) :=
  if resp.status = 200 then
    let data := resp.body
    match relProbe data rel with
    | .error e => .error e
    | .ok rel1 =>
      let rel2 := relEndpointAdjust suffix data rel1
      let objects2 := objAdopt keys data objects
      .ok (objEndpointAdjust suffix data objects2 rel2)
  else .ok (objects, rel)

/-- The sub-resource loop (lines 203-258): each iteration performs one fetch;
the loop breaks once both objects and relationships are truthy. -/
def subLoop (sub : String → HttpResp) :
    List (String × List String) → Json → Json → Nat → Except PyErr (Json × Json × Nat)
  | [], objects, rel, n => .ok (objects, rel, n)
  | (suffix, keys) :: rest, objects, rel, n =>
    match subStep (sub suffix) suffix keys objects rel with
    | .error e => .error e
    | .ok (o, r) =>
      if o.truthy && r.truthy then .ok (o, r, n + 1)
      else subLoop sub rest o r (n + 1)

/-- The `sub_resources` table (lines 196-201), in dict insertion order. -/
def subResources : List (String × List String) :=
  [("/content", ["diagramContent", "objects"]),
   ("/objects", ["objects"]),
   ("/elements", ["elements"]),
   ("/relationships", ["relationships"])]

/-- Lines 190-191: `objects = response_json["diagramContent"].get("objects")`
when no objects yet and the response has a `diagramContent` key. -/
def contentProbeObjects (response objects : Json) : Except PyErr Json :=
  if !objects.truthy then
    match pyContains "diagramContent" response with
    | .error e => .error e
    | .ok true =>
      match pyIndex response "diagramContent" with
      | .error e => .error e
      | .ok dc => pyGetD dc "objects" Json.null
    | .ok false => .ok objects
  else .ok objects

/-- Lines 192-193: same probe for relationships (note: `.get` without a
default, so a missing key yields `None`). -/
def contentProbeRelationships (response rel : Json) : Except PyErr Json :=
  if !rel.truthy then
    match pyContains "diagramContent" response with
    | .error e => .error e
    | .ok true =>
      match pyIndex response "diagramContent" with
      | .error e => .error e
      | .ok dc => pyGetD dc "relationships" Json.null
    | .ok false => .ok rel
  else .ok rel

def getDiagramData (cache : List (String × Json)) (diagramId : String)
    (primary : HttpResp) (sub : String → HttpResp) :
    Except PyErr (Option Json × List (String × Json) × Nat) :=
  match lookupD cache diagramId with
  | some v => .ok (some v, cache, 0)
  | none =>
    if primary.status ≠ 200 then .ok (none, cache, 1)
    else
      match pyGetD primary.body "diagram" (Json.obj []) with
      | .error e => .error e
      | .ok dia =>
        match dia with
        | .obj diaKvs =>
          -- lines 187-188: `dia.get("objects")`, `dia.get("relationships", [])`
          let objects0 := (lookupD diaKvs "objects").getD Json.null
          let rel0 := (lookupD diaKvs "relationships").getD (Json.arr [])
          match contentProbeObjects primary.body objects0 with
          | .error e => .error e
          | .ok objects1 =>
            match contentProbeRelationships primary.body rel0 with
            | .error e => .error e
            | .ok rel1 =>
              match (if !objects1.truthy || !rel1.truthy
                     then subLoop sub subResources objects1 rel1 1
                     else .ok (objects1, rel1, 1)) with
              | .error e => .error e
              | .ok (objects2, rel2, n) =>
                -- line 261: flatten a dict of relationships to its values
                let rel3 := if rel2.truthy && rel2.isObj then Json.arr rel2.values else rel2
                -- lines 264-273: final normalization of the two fields
                let diaKvs1 := assocSet diaKvs "objects"
                  (if objects2.isNull then Json.obj [] else objects2)
                let diaKvs2 := assocSet diaKvs1 "relationships"
                  (if !rel3.truthy then Json.arr [] else rel3)
                .ok (some (Json.obj diaKvs2), cache, n)
        | _ =>
          -- line 187 `dia.get(...)` on a non-dict `diagram` member
          .error "AttributeError: no attribute get"

/-! ## `MermaidDiagram` (src/main.py lines 76-136)

`nodes` is the insertion-ordered dict keyed by the raw id; node dicts carry
the sanitized id, the escaped name, the raw parent value (any Python value;
`Json.null` is `None`) and the mutable children list (child keys). -/

structure MNode where
  id : String
  name : String
  parent : Json
  children : List String

structure MLink where
  source : Json
  target : Json
  label : Json

structure MermaidDiagram where
  name : String
  nodes : List (String × MNode)
  links : List MLink

/-- Line 84: keep only alphanumerics and underscore. -/
def sanitizeId (id : String) : String :=
  String.mk (id.data.filter (fun c => c.isAlphanum || c == '_'))

/-- Line 86: `name.replace('"', '&quot;')`. -/
def escapeName (name : String) : String :=
  String.join (name.data.map (fun c => if c == '"' then "&quot;" else String.singleton c))

/-- Lines 82-92: `add_node` (re)binds the id to a fresh node dict. -/
def MermaidDiagram.add_node (m : MermaidDiagram) (id name : String)
    (parentId : Json := Json.null) : MermaidDiagram :=
  { m with nodes := assocSet m.nodes id ⟨sanitizeId id, escapeName name, parentId, []⟩ }

/-- Lines 94-95. -/
def MermaidDiagram.add_link (m : MermaidDiagram) (s t lbl : Json) : MermaidDiagram :=
  { m with links := m.links ++ [⟨s, t, lbl⟩] }

/-- Line 105's test `node["parent"] and node["parent"] in self.nodes`: the key
under which a node is attached as a child, `none` when it is a root (only a
truthy string parent can match a dict key). -/
def attachKey (ns : List (String × MNode)) (p : Json) : Option String :=
  if p.truthy then
    match p with
    | .str s => if (assocGet ns s).isSome then some s else none
    | _ => none
  else none

/-- Lines 100-101: reset every children list. -/
def resetChildren (ns : List (String × MNode)) : List (String × MNode) :=
  ns.map (fun kv => (kv.1, { kv.2 with children := [] }))

/-- The keys appended to node `p`'s children by the loop at lines 104-108,
in iteration order. -/
def childKeys (ns : List (String × MNode)) (p : String) : List String :=
  (ns.filter (fun kv => attachKey ns kv.2.parent == some p)).map Prod.fst

/-- Lines 104-106: append each attached node's key to its parent's children
list (appending, so stale children would accumulate without the reset). -/
def appendChildren (ns : List (String × MNode)) : List (String × MNode) :=
  ns.map (fun kv => (kv.1, { kv.2 with children := kv.2.children ++ childKeys ns kv.1 }))

/-- Lines 104-108: the roots, in iteration order. -/
def rootKeys (ns : List (String × MNode)) : List String :=
  (ns.filter (fun kv => (attachKey ns kv.2.parent).isNone)).map Prod.fst

def tabs (n : Nat) : String :=
  String.mk (List.replicate n '\t')

/-- Lines 112-122: recursive node rendering. The fuel argument bounds the
recursion depth; `nodes.length + 1` always suffices because each node is a
child of at most one parent, so any root-reachable chain has distinct nodes. -/
def renderNode (ns : List (String × MNode)) : Nat → Nat → String → String
  | 0, _, _ => ""
  | fuel + 1, indent, key =>
    match assocGet ns key with
    | none => ""
    | some n =>
      let tab := tabs indent
      if n.children.isEmpty then
        tab ++ n.id ++ "[\"" ++ n.name ++ "\"]\n"
      else
        tab ++ "subgraph " ++ n.id ++ " [\"" ++ n.name ++ "\"]\n"
          ++ String.join (n.children.map (renderNode ns fuel (indent + 1)))
          ++ tab ++ "end\n"

/-- Lines 127-135: a link renders only when both endpoints are keys of the
nodes dict (`self.nodes.get(...)`). -/
def linkLine (ns : List (String × MNode)) (l : MLink) : Option String :=
  match l.source with
  | .str s =>
    match assocGet ns s with
    | none => none
    | some sn =>
      match l.target with
      | .str t =>
        match assocGet ns t with
        | none => none
        | some tn =>
          if l.label.truthy then
            some ("\t" ++ sn.id ++ " -->|" ++ l.label.pyStr ++ "| " ++ tn.id ++ "\n")
          else
            some ("\t" ++ sn.id ++ " --> " ++ tn.id ++ "\n")
      | _ => none
  | _ => none

def edgeLines (ns : List (String × MNode)) (links : List MLink) : List String :=
  links.filterMap (linkLine ns)

/-- Lines 97-136: `generate` returns the text and the diagram as the call
leaves it (children lists reset and rebuilt in place). -/
def MermaidDiagram.generate (m : MermaidDiagram) : String × MermaidDiagram :=
  let ns1 := appendChildren (resetChildren m.nodes)
  ("flowchart TD\n"
     ++ String.join ((rootKeys ns1).map (renderNode ns1 (ns1.length + 1) 1))
     ++ String.join (edgeLines ns1 m.links),
   { m with nodes := ns1 })

/-! ## Diagram-mode pipeline inside `main` (src/main.py lines 349-497)

`objects` is the resolved diagram objects dict (`dia["objects"]`), passed as
its key/value list. Model-object fetches go through `getModelObject` with the
`model_objects` cache threaded through. -/

/-- Lines 366-370: the diagram-id → model-id map (only truthy `modelId`s).
The values are the raw `modelId` values. -/
def diaToModelE : List (String × Json) → Except PyErr (List (String × Json))
  | [] => .ok []
  | (k, v) :: rest =>
    match pyGetD v "modelId" Json.null with
    | .error e => .error e
    | .ok mid =>
      match diaToModelE rest with
      | .error e => .error e
      | .ok d2m => .ok (if mid.truthy then (k, mid) :: d2m else d2m)

/-- Line 431: `sorted(objects.items(), key=lambda item: 1 if item[1].get("modelId") else 0)`.
Python's sort is stable and the key takes two values, so the result is the
falsy-`modelId` items followed by the truthy ones, each in original order.
Computing the key calls `.get` on every value, which raises on non-dicts. -/
def sortedItemsE (objects : List (String × Json)) :
    Except PyErr (List (String × Json)) :=
  match diaToModelE objects with
  | .error e => .error e
  | .ok _ =>
    .ok ((objects.filter (fun kv => !((kv.2.lookup "modelId").getD Json.null).truthy))
      ++ objects.filter (fun kv => ((kv.2.lookup "modelId").getD Json.null).truthy))

/-- Membership test `x in mdia.nodes` for a dynamic value. -/
def attachCandidate (mdia : MermaidDiagram) (p : Json) : Bool :=
  match p with
  | .str s => (assocGet mdia.nodes s).isSome
  | _ => false

/-- Lines 452-456 and 473-474: when the referenced parent id is truthy, not
yet a node, and a key of the objects dict, synthesize the parent node from
the parent object's own `name` (default `"Group"`) and `parentId`. Only this
one level is added; the parent's own parent is not ensured. -/
def ensureParent (objects : List (String × Json)) (mdia : MermaidDiagram)
    (p : Json) : Except PyErr MermaidDiagram :=
  if p.truthy && !(attachCandidate mdia p) then
    match p with
    | .str s =>
      match lookupD objects s with
      | some pData =>
        match pyGetD pData "name" (Json.str "Group") with
        | .error e => .error e
        | .ok pn =>
          match pyGetD pData "parentId" Json.null with
          | .error e => .error e
          | .ok pp =>
            match asStr pn with
            | .error e => .error e
            | .ok pname => .ok (mdia.add_node s pname pp)
      | none => .ok mdia
    | _ => .ok mdia
  else .ok mdia

/-- Lines 433-477: process one `(obj_id, obj_data)` item of the sorted
iteration, threading the diagram under construction and the model cache. -/
def processObject (objects : List (String × Json)) (d2m : List (String × Json))
    (mresp : Json → Json) (st : MermaidDiagram × List (Json × Json))
    (item : String × Json) : Except PyErr (MermaidDiagram × List (Json × Json)) :=
  let mdia := st.1
  let mcache := st.2
  let objId := item.1
  match pyGetD item.2 "modelId" Json.null with
  | .error e => .error e
  | .ok modelId =>
    match pyGetD item.2 "parentId" Json.null with
    | .error e => .error e
    | .ok parentDiaId =>
      if modelId.truthy then
        -- lines 437-459: model-backed object
        match getModelObject mcache modelId mresp with
        | .error e => .error e
        | .ok (modelObj, mcache1, _) =>
          match (if !parentDiaId.truthy then
                   match pyContains "parentId" modelObj with
                   | .error e => .error e
                   | .ok true =>
                     match pyIndex modelObj "parentId" with
                     | .error e => .error e
                     | .ok pStruct =>
                       match (d2m.filter (fun kv => Json.beq kv.2 pStruct)).map Prod.fst with
                       | [] => .ok parentDiaId
                       | k :: _ => .ok (Json.str k)
                   | .ok false => .ok parentDiaId
                 else .ok parentDiaId : Except PyErr Json) with
          | .error e => .error e
          | .ok finalParentId =>
            match ensureParent objects mdia finalParentId with
            | .error e => .error e
            | .ok mdia1 =>
              match pyIndex modelObj "name" with
              | .error e => .error e
              | .ok nameJ =>
                match asStr nameJ with
                | .error e => .error e
                | .ok name => .ok (mdia1.add_node objId name finalParentId, mcache1)
      else
        -- lines 461-477: object without a modelId (pure group)
        match pyGetD item.2 "name" Json.null with
        | .error e => .error e
        | .ok name0 =>
          match (if !name0.truthy then
                   match pyGetD item.2 "type" Json.null with
                   | .error e => .error e
                   | .ok ty =>
                     match pyContains "style" item.2 with
                     | .error e => .error e
                     | .ok hasStyle =>
                       if ty.eqStr "boundary" || hasStyle then .ok (some (Json.str "Group"))
                       else .ok none  -- line 468: `continue`
                 else .ok (some name0) : Except PyErr (Option Json)) with
          | .error e => .error e
          | .ok none => .ok (mdia, mcache)
          | .ok (some name1) =>
            match ensureParent objects mdia parentDiaId with
            | .error e => .error e
            | .ok mdia1 =>
              if (assocGet mdia1.nodes objId).isSome then .ok (mdia1, mcache)
              else
                match asStr name1 with
                | .error e => .error e
                | .ok name => .ok (mdia1.add_node objId name parentDiaId, mcache)

/-- Lines 426-477: the full node-building pass. -/
def buildNodes (objects : List (String × Json)) (mresp : Json → Json)
    (mdia : MermaidDiagram) (mcache : List (Json × Json)) :
    Except PyErr (MermaidDiagram × List (Json × Json)) :=
  match diaToModelE objects with
  | .error e => .error e
  | .ok d2m =>
    match sortedItemsE objects with
    | .error e => .error e
    | .ok items => items.foldlM (processObject objects d2m mresp) (mdia, mcache)

/-! ## Relationship inference fallback (src/main.py lines 374-414) -/

/-- Python `x in set(...)` membership among a list of dynamic values. -/
def memJ (j : Json) (xs : List Json) : Bool :=
  xs.any (fun x => Json.beq x j)

/-- Line 409's reverse lookup `[k for k, v in dia_to_model.items() if v == m][0]`,
totalized with a default that is never used when `m` is among the values. -/
def revLookup (d2m : List (String × Json)) (m : Json) : String :=
  (((d2m.filter (fun kv => Json.beq kv.2 m)).map Prod.fst).headD "")

/-- `conn.get("originId") or conn.get("sourceId")` on a connection known to be
a dict, and the `targetId`/`destinationId` counterpart. -/
def connSource (kvs : List (String × Json)) : Json :=
  jor ((lookupD kvs "originId").getD Json.null) ((lookupD kvs "sourceId").getD Json.null)

def connTarget (kvs : List (String × Json)) : Json :=
  jor ((lookupD kvs "targetId").getD Json.null) ((lookupD kvs "destinationId").getD Json.null)

/-- Lines 408-413: the relationship synthesized from one accepted connection. -/
def synthRel (d2m : List (String × Json)) (kvs : List (String × Json)) : Json :=
  Json.obj
    [("sourceId", Json.str (revLookup d2m (connSource kvs))),
     ("targetId", Json.str (revLookup d2m (connTarget kvs))),
     ("label", (lookupD kvs "name").getD Json.null),
     ("modelId", (lookupD kvs "id").getD Json.null)]

/-- Lines 391-413: one iteration of the connection loop, appending onto the
relationships value (a Python list at this point; appending to anything else
would raise). -/
def connStep (diaId : String) (d2m : List (String × Json)) (modelIds : List Json)
    (rel : Json) (conn : Json) : Except PyErr Json :=
  match pyGetD conn "originId" Json.null with
  | .error e => .error e
  | .ok origin =>
    match pyGetD conn "sourceId" Json.null with
    | .error e => .error e
    | .ok sourceAlt =>
      match pyGetD conn "targetId" Json.null with
      | .error e => .error e
      | .ok target0 =>
        match pyGetD conn "destinationId" Json.null with
        | .error e => .error e
        | .ok destAlt =>
          let sourceModel := jor origin sourceAlt
          let targetModel := jor target0 destAlt
          if memJ sourceModel modelIds && memJ targetModel modelIds then
            match pyGetD conn "diagrams" (Json.obj []) with
            | .error e => .error e
            | .ok diagrams =>
              match diagrams with
              | .obj dkvs =>
                -- line 407: the second disjunct repeats the guard above, so
                -- every connection reaching here is accepted
                if (lookupD dkvs diaId).isSome
                    || (memJ sourceModel modelIds && memJ targetModel modelIds) then
                  match (d2m.filter (fun kv => Json.beq kv.2 sourceModel)).map Prod.fst with
                  | [] => .error "IndexError"
                  | _ :: _ =>
                    match (d2m.filter (fun kv => Json.beq kv.2 targetModel)).map Prod.fst with
                    | [] => .error "IndexError"
                    | _ :: _ =>
                      match conn with
                      | .obj ckvs =>
                        match rel with
                        | .arr xs => .ok (Json.arr (xs ++ [synthRel d2m ckvs]))
                        | _ => .error "AttributeError: no attribute append"
                      | _ => .error "AttributeError: no attribute get"
                else .ok rel
              | _ => .error "AttributeError: no attribute keys"
          else .ok rel

/-- The iteration values of `for conn in all_conns` (line 391): a list yields
its elements, a dict its keys, anything else raises. -/
def pyIterate : Json → Except PyErr (List Json)
  | .arr xs => .ok xs
  | .obj kvs => .ok (kvs.map (fun kv => Json.str kv.1))
  | .str s => .ok (s.data.map (fun c => Json.str (String.singleton c)))
  | _ => .error "TypeError: not iterable"

def connLoop (diaId : String) (d2m : List (String × Json)) (modelIds : List Json) :
    Json → List Json → Except PyErr Json
  | rel, [] => .ok rel
  | rel, conn :: rest =>
    match connStep diaId d2m modelIds rel conn with
    | .error e => .error e
    | .ok rel' => connLoop diaId d2m modelIds rel' rest

/-- Lines 374-414: when the resolver produced no (truthy) relationships,
fetch the global model connections and synthesize relationships from the
connections whose two endpoints are model ids present in the diagram. The
second component counts the HTTP requests performed. -/
def relationshipFallback (diaId : String) (d2m : List (String × Json))
    (relationships : Json) (connsResp : HttpResp) : Except PyErr (Json × Nat) :=
  if relationships.truthy then .ok (relationships, 0)
  else
    if connsResp.status = 200 then
      match pyGetD connsResp.body "modelConnections" (Json.arr []) with
      | .error e => .error e
      | .ok connsJ =>
        match pyIterate connsJ with
        | .error e => .error e
        | .ok conns =>
          match connLoop diaId d2m (d2m.map Prod.snd) relationships conns with
          | .error e => .error e
          | .ok rel' => .ok (rel', 1)
    else .ok (relationships, 1)

/-! ## Relationship → link loop (src/main.py lines 479-495) -/

/-- Membership `x in objects` for a dynamic value against the objects dict. -/
def objKeyMem (objects : List (String × Json)) (j : Json) : Bool :=
  match j with
  | .str s => (lookupD objects s).isSome
  | _ => false

/-- Line 494's guard: the endpoint is a key of the diagram objects dict or of
the already-built nodes dict. -/
def endpointOk (objects : List (String × Json)) (mdia : MermaidDiagram) (j : Json) : Bool :=
  objKeyMem objects j || attachCandidate mdia j

/-- Lines 482-495: one relationship. The label falls back to the relationship's
model object's name, fetched through `get_model_object`. -/
def relStep (objects : List (String × Json)) (mresp : Json → Json)
    (st : MermaidDiagram × List (Json × Json)) (rel : Json) :
    Except PyErr (MermaidDiagram × List (Json × Json)) :=
  match pyGetD rel "sourceId" Json.null with
  | .error e => .error e
  | .ok sourceId =>
    match pyGetD rel "targetId" Json.null with
    | .error e => .error e
    | .ok targetId =>
      match pyGetD rel "label" Json.null with
      | .error e => .error e
      | .ok lbl =>
        match pyGetD rel "name" Json.null with
        | .error e => .error e
        | .ok nm =>
          match pyGetD rel "modelId" Json.null with
          | .error e => .error e
          | .ok relModelId =>
            match (if !(jor lbl nm).truthy && relModelId.truthy then
                     match getModelObject st.2 relModelId mresp with
                     | .error e => .error e
                     | .ok (mo, mcache', _) =>
                       match pyGetD mo "name" Json.null with
                       | .error e => .error e
                       | .ok nm' => .ok (nm', mcache')
                   else .ok (jor lbl nm, st.2) :
                     Except PyErr (Json × List (Json × Json))) with
            | .error e => .error e
            | .ok (label, mcache1) =>
              if endpointOk objects st.1 sourceId && endpointOk objects st.1 targetId then
                .ok (st.1.add_link sourceId targetId label, mcache1)
              else .ok (st.1, mcache1)

def relLoop (objects : List (String × Json)) (mresp : Json → Json)
    (st : MermaidDiagram × List (Json × Json)) :
    List Json → Except PyErr (MermaidDiagram × List (Json × Json))
  | [] => .ok st
  | rel :: rest =>
    match relStep objects mresp st rel with
    | .error e => .error e
    | .ok st' => relLoop objects mresp st' rest

/-! ## `MermaidSequence` and the flow loop (src/main.py lines 22-73, 510-553)

Participant and interaction fields hold raw dynamic values (ids and names come
straight out of JSON bodies); `participants` is the insertion-ordered dict
keyed by the participant id value. -/

structure SequenceParticipant where
  id : Json
  name : Json

structure SequenceInteraction where
  id : Json
  type : Json
  description : Json
  source_id : Json
  target_id : Json

structure MermaidSequence where
  name : Json
  participants : List (Json × SequenceParticipant)
  sequence_steps : List SequenceInteraction

/-- Lines 50-52: only the first participant with a given id is kept. -/
def MermaidSequence.add_participant (s : MermaidSequence) (p : SequenceParticipant) :
    MermaidSequence :=
  if s.participants.any (fun kv => Json.beq kv.1 p.id) then s
  else { s with participants := s.participants ++ [(p.id, p)] }

/-- Lines 54-55. -/
def MermaidSequence.add_sequence_step (s : MermaidSequence) (st : SequenceInteraction) :
    MermaidSequence :=
  { s with sequence_steps := s.sequence_steps ++ [st] }

/-- Lines 63-73: header with autonumbering, one participant line per stored
participant, then one arrow line per step (`-->>` back to the origin when the
step has no target, `->>` to the target otherwise). -/
def MermaidSequence.generate (s : MermaidSequence) : String :=
  "sequenceDiagram\n" ++ "\tautonumber\n"
    ++ String.join (s.participants.map (fun kv =>
        "\tparticipant " ++ kv.2.id.pyStr ++ " as " ++ kv.2.name.pyStr ++ "\n"))
    ++ String.join (s.sequence_steps.map (fun st =>
        if st.target_id.isNull then
          "\t" ++ st.source_id.pyStr ++ " -->> " ++ st.source_id.pyStr ++ ": "
            ++ st.description.pyStr ++ "\n"
        else
          "\t" ++ st.source_id.pyStr ++ " ->> " ++ st.target_id.pyStr ++ ": "
            ++ st.description.pyStr ++ "\n"))

/-- `get_diagram_object` (lines 278-292) against the already-resolved objects
dict of the flow's diagram: `None` for a `None` id or an id that is not a key
(`get_diagram_data` is deterministic for fixed responses, so every call for
the flow's single diagram id resolves to the same objects dict, which is
taken here as a parameter). -/
def getDiagramObject (diaObjects : Json) (objId : Json) : Option Json :=
  if objId.isNull then none
  else
    match objId, diaObjects with
    | .str s, .obj kvs => lookupD kvs s
    | _, _ => none

/-- `v["index"]` for the sort key at line 529 (modelled for numeric indices;
the script sorts by the raw values, which for the service's flows are
numbers). -/
def stepIndex (kv : String × Json) : Except PyErr Int :=
  match pyIndex kv.2 "index" with
  | .error e => .error e
  | .ok (.num n) => .ok n
  | .ok _ => .error "TypeError: unorderable index"

/-- Stable insertion into a list already sorted by the second component:
the new element goes after every element with a key `≤` its own. -/
def insertByIdx (x : (String × Json) × Int) :
    List ((String × Json) × Int) → List ((String × Json) × Int)
  | [] => [x]
  | y :: ys => if y.2 ≤ x.2 then y :: insertByIdx x ys else x :: y :: ys

def insertAll (acc : List ((String × Json) × Int)) :
    List ((String × Json) × Int) → List ((String × Json) × Int)
  | [] => acc
  | x :: xs => insertAll (insertByIdx x acc) xs

/-- The sort key of every item, computed up front (evaluating the key calls
`v["index"]` on every step, which can raise). -/
def stepIdxList : List (String × Json) → Except PyErr (List ((String × Json) × Int))
  | [] => .ok []
  | kv :: rest =>
    match stepIndex kv with
    | .error e => .error e
    | .ok i =>
      match stepIdxList rest with
      | .error e => .error e
      | .ok l => .ok ((kv, i) :: l)

/-- Line 529: `sorted(flow["steps"].items(), key=lambda item: item[1]["index"])`.
Python's sort is stable, and a stable sort's output is the unique sorted
stability-preserving permutation, reproduced here by stable insertion. -/
def sortStepsByIndex (steps : List (String × Json)) :
    Except PyErr (List (String × Json)) :=
  match stepIdxList steps with
  | .error e => .error e
  | .ok withIdx => .ok ((insertAll [] withIdx).map Prod.fst)

/-- Lines 531-552: one flow step. A step whose origin object cannot be found
is skipped; a missing target yields a self-interaction. -/
def flowStep (diaObjects : Json) (mresp : Json → Json)
    (st : MermaidSequence × List (Json × Json)) (kv : String × Json) :
    Except PyErr (MermaidSequence × List (Json × Json)) :=
  match pyIndex kv.2 "originId" with
  | .error e => .error e
  | .ok originId =>
    match getDiagramObject diaObjects originId with
    | none => .ok (st.1, st.2)  -- line 535: `continue`
    | some diaObjOri =>
      match pyIndex kv.2 "targetId" with
      | .error e => .error e
      | .ok targetId =>
        match pyIndex diaObjOri "modelId" with
        | .error e => .error e
        | .ok oriModelId =>
          match getModelObject st.2 oriModelId mresp with
          | .error e => .error e
          | .ok (modelObjOri, mcache1, _) =>
            match (match (if targetId.isNull then none
                          else getDiagramObject diaObjects targetId) with
                   | none => .ok (none, mcache1)
                   | some dt =>
                     match pyIndex dt "modelId" with
                     | .error e => .error e
                     | .ok tarModelId =>
                       match getModelObject mcache1 tarModelId mresp with
                       | .error e => .error e
                       | .ok (mo, mcache2, _) => .ok (some mo, mcache2) :
                     Except PyErr (Option Json × List (Json × Json))) with
            | .error e => .error e
            | .ok (modelObjTar, mcache2) =>
              match pyIndex modelObjOri "id" with
              | .error e => .error e
              | .ok oriId =>
                match pyIndex modelObjOri "name" with
                | .error e => .error e
                | .ok oriName =>
                  match (match modelObjTar with
                         | none => .ok (none, st.1.add_participant ⟨oriId, oriName⟩)
                         | some mo =>
                           match pyIndex mo "id" with
                           | .error e => .error e
                           | .ok tarId =>
                             match pyIndex mo "name" with
                             | .error e => .error e
                             | .ok tarName =>
                               .ok (some tarId,
                                 (st.1.add_participant ⟨oriId, oriName⟩).add_participant
                                   ⟨tarId, tarName⟩) :
                           Except PyErr (Option Json × MermaidSequence)) with
                  | .error e => .error e
                  | .ok (tarPid, seq2) =>
                    match pyIndex kv.2 "id" with
                    | .error e => .error e
                    | .ok vid =>
                      match pyIndex kv.2 "type" with
                      | .error e => .error e
                      | .ok vtype =>
                        match pyIndex kv.2 "description" with
                        | .error e => .error e
                        | .ok vdesc =>
                          .ok (seq2.add_sequence_step
                            ⟨vid, vtype, vdesc, oriId, tarPid.getD Json.null⟩, mcache2)

/-- The `for k, v in steps.items()` loop (lines 531-552). -/
def flowLoop (diaObjects : Json) (mresp : Json → Json) :
    MermaidSequence × List (Json × Json) → List (String × Json) →
    Except PyErr (MermaidSequence × List (Json × Json))
  | st, [] => .ok st
  | st, kv :: rest =>
    match flowStep diaObjects mresp st kv with
    | .error e => .error e
    | .ok st' => flowLoop diaObjects mresp st' rest

/-- Lines 528-552: build the sequence for a flow from its steps dict, the
resolved diagram objects, and the model-object responses. -/
def buildFlowSequence (flowName : Json) (steps : List (String × Json))
    (diaObjects : Json) (mresp : Json → Json) (mcache : List (Json × Json)) :
    Except PyErr (MermaidSequence × List (Json × Json)) :=
  match sortStepsByIndex steps with
  | .error e => .error e
  | .ok sorted => flowLoop diaObjects mresp (⟨flowName, [], []⟩, mcache) sorted

/-! ## Basic dictionary lemmas -/

theorem assocGet_assocSet {α : Type} (xs : List (String × α)) (k k' : String) (v : α) :
    assocGet (assocSet xs k v) k' = if k' = k then some v else assocGet xs k' := by
  induction xs with
  | nil =>
    rcases eq_or_ne k k' with h | h
    · subst h; simp [assocSet, assocGet]
    · simp [assocSet, assocGet, h, h.symm]
  | cons hd tl ih =>
    obtain ⟨k0, v0⟩ := hd
    rcases eq_or_ne k0 k with h0 | h0
    · subst h0
      rcases eq_or_ne k0 k' with h | h
      · subst h; simp [assocSet, assocGet]
      · simp [assocSet, assocGet, h, h.symm]
    · rcases eq_or_ne k0 k' with h1 | h1
      · subst h1
        simp [assocSet, assocGet, h0]
      · simp [assocSet, assocGet, h0, h1, ih]

theorem lookupD_eq_assocGet (xs : List (String × Json)) (k : String) :
    lookupD xs k = assocGet xs k := by
  induction xs with
  | nil => rfl
  | cons hd tl ih => obtain ⟨k0, v0⟩ := hd; simp [lookupD, assocGet, ih]

theorem lookupD_assocSet (xs : List (String × Json)) (k k' : String) (v : Json) :
    lookupD (assocSet xs k v) k' = if k' = k then some v else lookupD xs k' := by
  rw [lookupD_eq_assocGet, lookupD_eq_assocGet, assocGet_assocSet]

/-! ## Claim theorems -/

/-- Claim C9 counterexample: the claim predicts that every kept character of
the name survives (so `"a "` would give `"a .mmd"`), but `create_file_name`
also strips trailing whitespace and returns `"a.mmd"`. -/
theorem c9_counterexample :
    create_file_name "a " "mmd" = "a.mmd" ∧ claimFileName "a " "mmd" = "a .mmd" ∧
      create_file_name "a " "mmd" ≠ claimFileName "a " "mmd" := by
  refine ⟨rfl, rfl, ?_⟩
  decide

/-- Claim C9 (amended): `create_file_name` removes every character outside
alphanumerics/space/period/underscore, then strips trailing whitespace, then
appends a period and the requested extension. -/
theorem c9_amended (name ext : String) :
    create_file_name name ext =
      pyRstrip (String.mk (name.data.filter
        (fun c => c.isAlphanum || c == ' ' || c == '.' || c == '_'))) ++ "." ++ ext := rfl

/-- Claim C3 counterexample: for id `"m1"` and a response body lacking any
identifiable object (`{}`), the sentinel's name is `"Unknown Model Object"`,
not the claimed `"Unknown"`. -/
theorem c3_counterexample :
    getModelObject [] (Json.str "m1") (fun _ => Json.obj []) =
      .ok (fetchFailedSentinel (Json.str "m1"),
           [(Json.str "m1", fetchFailedSentinel (Json.str "m1"))], 1)
    ∧ (fetchFailedSentinel (Json.str "m1")).lookup "name" =
        some (Json.str "Unknown Model Object")
    ∧ "Unknown Model Object" ≠ "Unknown" := by
  refine ⟨rfl, rfl, ?_⟩
  decide

/-- Claim C3 (amended): a `None` id yields the sentinel
`{id: None, name: "Unknown", type: "unknown"}` with no fetch and no cache
write; a fetched response that lacks both a `modelObject` wrapper and an `id`
key yields — and caches — the sentinel
`{id, name: "Unknown Model Object", type: "unknown"}` after one fetch; and a
cached id is returned with no fetch. -/
theorem c3_amended :
    (∀ (cache : List (Json × Json)) (resp : Json → Json),
        lookupJ cache Json.null = none →
        getModelObject cache Json.null resp = .ok (unknownSentinel, cache, 0))
    ∧ (∀ (cache : List (Json × Json)) (s : String) (resp : Json → Json) (kvs : List (String × Json)),
        lookupJ cache (Json.str s) = none →
        resp (Json.str s) = Json.obj kvs →
        lookupD kvs "modelObject" = none →
        lookupD kvs "id" = none →
        getModelObject cache (Json.str s) resp =
          .ok (fetchFailedSentinel (Json.str s),
               assocSetJ cache (Json.str s) (fetchFailedSentinel (Json.str s)), 1))
    ∧ (∀ (cache : List (Json × Json)) (id : Json) (resp : Json → Json) (v : Json),
        lookupJ cache id = some v →
        getModelObject cache id resp = .ok (v, cache, 0)) := by
  refine ⟨?_, ?_, ?_⟩
  · intro cache resp hc
    simp [getModelObject, hc, Json.isNull]
  · intro cache s resp kvs hc hr hmo hid
    simp [getModelObject, hc, Json.isNull, hr, pyContains, hmo, hid]
  · intro cache id resp v hc
    simp [getModelObject, hc]

/-- Witness for the amended C3 theorem at concrete inputs. -/
theorem c3_amended_witness :
    getModelObject [] Json.null (fun _ => Json.obj []) = .ok (unknownSentinel, [], 0)
    ∧ getModelObject [] (Json.str "m1") (fun _ => Json.obj [("x", Json.null)]) =
        .ok (fetchFailedSentinel (Json.str "m1"),
             [(Json.str "m1", fetchFailedSentinel (Json.str "m1"))], 1)
    ∧ getModelObject [(Json.str "a", Json.bool true)] (Json.str "a")
        (fun _ => Json.obj []) = .ok (Json.bool true, [(Json.str "a", Json.bool true)], 0) :=
  ⟨c3_amended.1 [] _ rfl,
   c3_amended.2.1 [] "m1" _ [("x", Json.null)] rfl rfl rfl rfl,
   c3_amended.2.2 [(Json.str "a", Json.bool true)] (Json.str "a") _ (Json.bool true) rfl⟩

/-- The diagram whose data claim C1's scenario resolves. -/
def c1primary : HttpResp :=
  ⟨200, Json.obj [("diagram", Json.obj
    [("objects", Json.obj [("o1", Json.obj [])]),
     ("relationships", Json.arr [Json.obj []])])]⟩

def c1sub : String → HttpResp := fun _ => ⟨404, Json.null⟩

def c1FirstCall : Except PyErr (Option Json × List (String × Json) × Nat) :=
  getDiagramData [] "d1" c1primary c1sub

/-- The second call, made with the cache exactly as the first call left it. -/
def c1SecondCall : Except PyErr (Option Json × List (String × Json) × Nat) :=
  match c1FirstCall with
  | .ok (_, cache1, _) => getDiagramData cache1 "d1" c1primary c1sub
  | e => e

/-- Claim C1 (code bug): `get_diagram_data` checks `diagram_cache` but never
writes to it (there is no assignment to `diagram_cache` anywhere in the
script, despite the comment at src/main.py line 140), so a second call for
the same diagram id performs a fresh HTTP fetch (count 1) instead of the
claimed zero. -/
theorem c1_cache_never_populated :
    c1FirstCall = .ok (some (Json.obj
        [("objects", Json.obj [("o1", Json.obj [])]),
         ("relationships", Json.arr [Json.obj []])]), [], 1)
    ∧ c1SecondCall = .ok (some (Json.obj
        [("objects", Json.obj [("o1", Json.obj [])]),
         ("relationships", Json.arr [Json.obj []])]), [], 1)
    ∧ (1 : Nat) ≠ 0 := ⟨rfl, rfl, by decide⟩

/-- Claim C2 counterexample: on a non-200 primary response the resolver
returns `None` (with the one fetch performed), not a result carrying
non-None `objects`/`relationships` collections. -/
theorem c2_counterexample :
    getDiagramData [] "d2" ⟨404, Json.null⟩ (fun _ => ⟨404, Json.null⟩) =
      .ok (none, [], 1) := rfl

theorem resetChildren_appendChildren (ns : List (String × MNode)) :
    resetChildren (appendChildren ns) = resetChildren ns := by
  simp only [resetChildren, appendChildren, List.map_map]
  rfl

theorem resetChildren_resetChildren (ns : List (String × MNode)) :
    resetChildren (resetChildren ns) = resetChildren ns := by
  simp only [resetChildren, List.map_map]
  rfl

/-- Claim C5: `generate` is idempotent — the text produced by a second call on
the state left behind by the first call is byte-identical, because the
children lists are reset and recomputed from the parent pointers on every
call instead of accumulating. -/
theorem c5_generate_idempotent (m : MermaidDiagram) :
    (m.generate.2.generate).1 = m.generate.1 := by
  show (MermaidDiagram.generate ⟨m.name, appendChildren (resetChildren m.nodes), m.links⟩).1
    = (MermaidDiagram.generate m).1
  simp only [MermaidDiagram.generate, resetChildren_appendChildren, resetChildren_resetChildren]

/-- Claim C10's overwrite scenario: a model-backed child `C` whose parent `P`
is also model-backed, in that dict order (the stable sort keeps them in
insertion order since both carry a truthy `modelId`). -/
def c10objects : List (String × Json) :=
  [("C", Json.obj [("modelId", Json.str "mC"), ("parentId", Json.str "P")]),
   ("P", Json.obj [("modelId", Json.str "mP"), ("name", Json.str "DiaName")])]

def c10resp : Json → Json := fun j =>
  match j with
  | .str "mC" => Json.obj [("modelObject",
      Json.obj [("id", Json.str "mC"), ("name", Json.str "ChildModel")])]
  | .str "mP" => Json.obj [("modelObject",
      Json.obj [("id", Json.str "mP"), ("name", Json.str "ModelName")])]
  | _ => Json.null

def c10d2m : List (String × Json) := [("C", Json.str "mC"), ("P", Json.str "mP")]

/-- State after processing `C` alone: `P` is synthesized from its diagram
object's data. -/
def c10After1 : Except PyErr (MermaidDiagram × List (Json × Json)) :=
  processObject c10objects c10d2m c10resp (⟨"D", [], []⟩, [])
    ("C", Json.obj [("modelId", Json.str "mC"), ("parentId", Json.str "P")])

/-- State after processing `P` as well: its node is rebuilt from the model
object. -/
def c10After2 : Except PyErr (MermaidDiagram × List (Json × Json)) :=
  match c10After1 with
  | .ok st => processObject c10objects c10d2m c10resp st
      ("P", Json.obj [("modelId", Json.str "mP"), ("name", Json.str "DiaName")])
  | e => e

/-- The name stored for key `k` in the nodes of a pipeline state. -/
def nodeNameIn (r : Except PyErr (MermaidDiagram × List (Json × Json))) (k : String) :
    Option String :=
  match r with
  | .ok st => (assocGet st.1.nodes k).map (fun n => n.name)
  | .error _ => none

/-- Claim C10: `add_node` with an existing id replaces that entry entirely —
the lookup afterwards yields the freshly built node (sanitized id, escaped
name, new parent, empty children) — while every other key and the links list
are untouched; and in the hierarchy pass a parent first synthesized from the
child's diagram-object data (name `"DiaName"`) is overwritten with the model
object's name (`"ModelName"`) when that parent object is processed later. -/
theorem c10_add_node_last_write_wins :
    (∀ (m : MermaidDiagram) (id name : String) (p : Json) (k : String),
        assocGet (m.add_node id name p).nodes k =
          if k = id then some ⟨sanitizeId id, escapeName name, p, []⟩
          else assocGet m.nodes k)
    ∧ (∀ (m : MermaidDiagram) (id name : String) (p : Json),
        (m.add_node id name p).links = m.links)
    ∧ nodeNameIn c10After1 "P" = some "DiaName"
    ∧ nodeNameIn c10After2 "P" = some "ModelName"
    ∧ buildNodes c10objects c10resp ⟨"D", [], []⟩ [] = c10After2
    ∧ ("DiaName" : String) ≠ "ModelName" := by
  refine ⟨?_, ?_, rfl, rfl, rfl, by decide⟩
  · intro m id name p k
    simp [MermaidDiagram.add_node, assocGet_assocSet]
  · intro m id name p
    rfl

theorem isObj_iff (j : Json) : j.isObj = true ↔ ∃ kvs, j = Json.obj kvs := by
  cases j <;> simp [Json.isObj]

theorem truthy_not_null {j : Json} (h : j.truthy = true) : j.isNull = false := by
  cases j <;> simp_all [Json.truthy, Json.isNull]

theorem relProbeElif_obj (kvs : List (String × Json)) (rel : Json) :
    ∃ r', relProbeElif (Json.obj kvs) rel = .ok r' := by
  cases h : lookupD kvs "relationships" with
  | none => exact ⟨rel, by simp [relProbeElif, pyContains, h]⟩
  | some v => exact ⟨v, by simp [relProbeElif, pyContains, pyIndex, h]⟩

theorem relProbe_obj (kvs : List (String × Json)) (rel : Json) :
    ∃ r', relProbe (Json.obj kvs) rel = .ok r' := by
  by_cases ht : rel.truthy
  · exact ⟨rel, by simp [relProbe, ht]⟩
  · cases h : lookupD kvs "diagramContent" with
    | none =>
      obtain ⟨r', hr⟩ := relProbeElif_obj kvs rel
      exact ⟨r', by simp [relProbe, ht, pyContains, h, hr]⟩
    | some dc =>
      by_cases hdc : dc.isObj
      · obtain ⟨dkvs, hdk⟩ := (isObj_iff dc).mp hdc
        subst hdk
        exact ⟨(lookupD dkvs "relationships").getD (Json.arr []),
          by simp [relProbe, ht, pyContains, pyIndex, h, Json.isObj, pyGetD]⟩
      · obtain ⟨r', hr⟩ := relProbeElif_obj kvs rel
        exact ⟨r', by simp [relProbe, ht, pyContains, pyIndex, h, hdc, hr]⟩

theorem subStep_ok (resp : HttpResp) (sfx : String) (ks : List String)
    (objects rel : Json) (h : resp.status = 200 → resp.body.isObj) :
    ∃ o r, subStep resp sfx ks objects rel = .ok (o, r) := by
  by_cases hs : resp.status = 200
  · obtain ⟨kvs, hbody⟩ := (isObj_iff _).mp (h hs)
    obtain ⟨r1, hr1⟩ := relProbe_obj kvs rel
    have hstep : subStep resp sfx ks objects rel =
        .ok (objEndpointAdjust sfx (Json.obj kvs)
          (objAdopt ks (Json.obj kvs) objects) (relEndpointAdjust sfx (Json.obj kvs) r1)) := by
      simp [subStep, hs, hbody, hr1]
    exact ⟨_, _, hstep⟩
  · exact ⟨objects, rel, by simp [subStep, hs]⟩

theorem subLoop_ok (sub : String → HttpResp)
    (h : ∀ sfx, (sub sfx).status = 200 → (sub sfx).body.isObj) :
    ∀ (l : List (String × List String)) (objects rel : Json) (n : Nat),
      ∃ o r m, subLoop sub l objects rel n = .ok (o, r, m) := by
  intro l
  induction l with
  | nil => intro objects rel n; exact ⟨objects, rel, n, rfl⟩
  | cons hd tl ih =>
    intro objects rel n
    obtain ⟨sfx, ks⟩ := hd
    obtain ⟨o, r, hstep⟩ := subStep_ok (sub sfx) sfx ks objects rel (h sfx)
    cases hbr : (o.truthy && r.truthy) with
    | true => exact ⟨o, r, n + 1, by simp [subLoop, hstep, hbr]⟩
    | false =>
      obtain ⟨o', r', m, hrec⟩ := ih o r (n + 1)
      exact ⟨o', r', m, by simp [subLoop, hstep, hbr, hrec]⟩

theorem contentProbeObjects_ok (bkvs : List (String × Json)) (objects : Json)
    (hdc : ∀ v, lookupD bkvs "diagramContent" = some v → v.isObj) :
    ∃ o, contentProbeObjects (Json.obj bkvs) objects = .ok o := by
  by_cases ht : objects.truthy
  · exact ⟨objects, by simp [contentProbeObjects, ht]⟩
  · cases h : lookupD bkvs "diagramContent" with
    | none => exact ⟨objects, by simp [contentProbeObjects, ht, pyContains, h]⟩
    | some dc =>
      obtain ⟨dkvs, hdk⟩ := (isObj_iff dc).mp (hdc dc h)
      subst hdk
      exact ⟨(lookupD dkvs "objects").getD Json.null,
        by simp [contentProbeObjects, ht, pyContains, pyIndex, h, pyGetD]⟩

theorem contentProbeRelationships_ok (bkvs : List (String × Json)) (rel : Json)
    (hdc : ∀ v, lookupD bkvs "diagramContent" = some v → v.isObj) :
    ∃ r, contentProbeRelationships (Json.obj bkvs) rel = .ok r := by
  by_cases ht : rel.truthy
  · exact ⟨rel, by simp [contentProbeRelationships, ht]⟩
  · cases h : lookupD bkvs "diagramContent" with
    | none => exact ⟨rel, by simp [contentProbeRelationships, ht, pyContains, h]⟩
    | some dc =>
      obtain ⟨dkvs, hdk⟩ := (isObj_iff dc).mp (hdc dc h)
      subst hdk
      exact ⟨(lookupD dkvs "relationships").getD Json.null,
        by simp [contentProbeRelationships, ht, pyContains, pyIndex, h, pyGetD]⟩

/-- The shape claim C2 (amended) asserts of a resolver result: a returned
dict whose `objects` and `relationships` entries exist and are not `None`
(and in particular no exception and no `None` result). -/
def normalizedResult : Except PyErr (Option Json × List (String × Json) × Nat) → Bool
  | .ok (some d, _, _) =>
    (match d.lookup "objects" with
     | some o => !o.isNull
     | none => false)
    && (match d.lookup "relationships" with
        | some r => !r.isNull
        | none => false)
  | _ => false

theorem normalizedResult_pair (diaKvs : List (String × Json)) (oVal rVal : Json)
    (ho : oVal.isNull = false) (hr : rVal.isNull = false)
    (cache : List (String × Json)) (n : Nat) :
    normalizedResult (.ok (some (Json.obj
      (assocSet (assocSet diaKvs "objects" oVal) "relationships" rVal)), cache, n)) = true := by
  have hno : ("objects" : String) ≠ "relationships" := by decide
  simp [normalizedResult, Json.lookup, lookupD_assocSet, hno, ho, hr]

theorem getDiagramData_normalized_tail (diaKvs : List (String × Json))
    (objects2 rel2 : Json) (cache : List (String × Json)) (n : Nat) :
    normalizedResult (.ok (some (Json.obj
      (assocSet (assocSet diaKvs "objects"
          (if objects2.isNull then Json.obj [] else objects2))
        "relationships"
        (if !(if rel2.truthy && rel2.isObj then Json.arr rel2.values else rel2).truthy
         then Json.arr []
         else (if rel2.truthy && rel2.isObj then Json.arr rel2.values else rel2)))),
      cache, n)) = true := by
  have h1 : ∀ o2 : Json, (if o2.isNull then Json.obj [] else o2).isNull = false := by
    intro o2
    cases hb : o2.isNull
    · simp [hb]
    · simp [hb, Json.isNull]
  have h2 : ∀ r3 : Json, (if !r3.truthy then Json.arr [] else r3).isNull = false := by
    intro r3
    cases hb : r3.truthy
    · simp [hb, Json.isNull]
    · simp [hb, truthy_not_null hb]
  exact normalizedResult_pair diaKvs _ _ (h1 objects2) (h2 _) cache n

/-- Claim C2 (amended): when the primary diagram fetch returns 200 with a
JSON-object body (whose `diagram` and `diagramContent` members, when present,
are themselves objects), and every sub-resource probe that returns 200 has a
JSON-object body, `get_diagram_data` raises nothing and returns a dict whose
`objects` and `relationships` entries are present and non-None (possibly
empty). A non-200 primary response instead yields `None`
(see the counterexample theorem). -/
theorem c2_amended (cache : List (String × Json)) (diagramId : String)
    (primary : HttpResp) (sub : String → HttpResp)
    (hc : lookupD cache diagramId = none)
    (hs : primary.status = 200)
    (hb : ∃ bkvs, primary.body = Json.obj bkvs)
    (hdia : ∀ v, primary.body.lookup "diagram" = some v → v.isObj)
    (hdc : ∀ v, primary.body.lookup "diagramContent" = some v → v.isObj)
    (hsub : ∀ sfx, (sub sfx).status = 200 → (sub sfx).body.isObj) :
    normalizedResult (getDiagramData cache diagramId primary sub) = true := by
  obtain ⟨bkvs, hbody⟩ := hb
  rw [hbody] at hdia hdc
  have hdc' : ∀ v, lookupD bkvs "diagramContent" = some v → v.isObj := by
    intro v hv
    exact hdc v (by simpa [Json.lookup] using hv)
  have hdiaObj : ∃ diaKvs,
      (lookupD bkvs "diagram").getD (Json.obj []) = Json.obj diaKvs := by
    cases hd : lookupD bkvs "diagram" with
    | none => exact ⟨[], rfl⟩
    | some v =>
      obtain ⟨diaKvs, hdk⟩ := (isObj_iff v).mp (hdia v (by simpa [Json.lookup] using hd))
      exact ⟨diaKvs, by simp [hdk]⟩
  obtain ⟨diaKvs, hdk⟩ := hdiaObj
  obtain ⟨o1, ho1⟩ :=
    contentProbeObjects_ok bkvs ((lookupD diaKvs "objects").getD Json.null) hdc'
  obtain ⟨r1, hr1⟩ :=
    contentProbeRelationships_ok bkvs ((lookupD diaKvs "relationships").getD (Json.arr [])) hdc'
  by_cases hloop : (!o1.truthy || !r1.truthy) = true
  · obtain ⟨o2, r2, n, hl⟩ := subLoop_ok sub hsub subResources o1 r1 1
    simp only [getDiagramData, hc, hs, hbody, pyGetD, hdk, ho1, hr1, hloop, if_true, hl,
      ne_eq, not_true_eq_false, if_false, ite_true]
    exact getDiagramData_normalized_tail diaKvs o2 r2 cache n
  · simp only [getDiagramData, hc, hs, hbody, pyGetD, hdk, ho1, hr1, hloop,
      ne_eq, not_true_eq_false, if_false, ite_false]
    exact getDiagramData_normalized_tail diaKvs o1 r1 cache 1

/-- Witness for the amended C2 theorem: a 200 response with an empty object
body and failing sub-resources still resolves to empty collections. -/
theorem c2_amended_witness :
    normalizedResult (getDiagramData [] "d" ⟨200, Json.obj []⟩
      (fun _ => ⟨404, Json.null⟩)) = true :=
  c2_amended [] "d" ⟨200, Json.obj []⟩ (fun _ => ⟨404, Json.null⟩) rfl rfl ⟨[], rfl⟩
    (by intro v hv; simp [Json.lookup, lookupD] at hv)
    (by intro v hv; simp [Json.lookup, lookupD] at hv)
    (by intro sfx hv; simp at hv)

/-- Claim C7's counterexample input: a single group object whose `parentId`
points outside the objects map. -/
def c7objects : List (String × Json) :=
  [("A", Json.obj [("name", Json.str "a"), ("parentId", Json.str "P")])]

/-- Claim C7 counterexample: object `A` resolves a truthy parent id `"P"`
that is not yet a node, yet no parent node is synthesized (the id is not a
key of the objects map), and the resulting forest contains a node `A` whose
referenced parent is not present as a node at all. -/
theorem c7_counterexample :
    buildNodes c7objects (fun _ => Json.null) ⟨"D", [], []⟩ [] =
      .ok (⟨"D", [("A", ⟨"A", "a", Json.str "P", []⟩)], []⟩, [])
    ∧ assocGet [("A", (⟨"A", "a", Json.str "P", []⟩ : MNode))] "P" = none
    ∧ (Json.str "P").truthy = true := ⟨rfl, rfl, rfl⟩

theorem ensureParent_str (objects : List (String × Json)) (mdia : MermaidDiagram)
    (s : String) :
    ensureParent objects mdia (Json.str s) =
      if (Json.str s).truthy && !(attachCandidate mdia (Json.str s)) then
        match lookupD objects s with
        | some pData =>
          (match pyGetD pData "name" (Json.str "Group") with
           | .error e => .error e
           | .ok pn =>
             match pyGetD pData "parentId" Json.null with
             | .error e => .error e
             | .ok pp =>
               match asStr pn with
               | .error e => .error e
               | .ok pname => .ok (mdia.add_node s pname pp))
        | none => .ok mdia
      else .ok mdia := rfl

theorem ensureParent_cases (objects : List (String × Json)) (mdia : MermaidDiagram)
    (p : Json) (m' : MermaidDiagram) (h : ensureParent objects mdia p = .ok m') :
    m' = mdia ∨ ∃ s name pp, p = Json.str s ∧ m' = mdia.add_node s name pp := by
  unfold ensureParent at h
  split at h
  · split at h
    · split at h
      · split at h
        · exact Except.noConfusion h
        · split at h
          · exact Except.noConfusion h
          · split at h
            · exact Except.noConfusion h
            · rename_i pname hstr
              injection h with h
              exact Or.inr ⟨_, pname, _, rfl, h.symm⟩
      · injection h with h
        exact Or.inl h.symm
    · injection h with h
      exact Or.inl h.symm
  · injection h with h
    exact Or.inl h.symm

/-- Claim C7 (amended): when a child's resolved parent id is not yet a node,
a parent node is synthesized before the child only when the parent id is a
key of the flat objects map, and only one level deep — the call adds at most
that single parent key, so the synthesized parent's own parent is not
recursively ensured. A node may therefore reference a parent id that never
becomes a node; at render time any node whose parent is untruthy or not a
present node key is a forest root. -/
theorem c7_amended :
    (∀ (objects : List (String × Json)) (mdia : MermaidDiagram) (p : Json)
        (m' : MermaidDiagram),
        ensureParent objects mdia p = .ok m' →
        ∀ k, (assocGet m'.nodes k).isSome = true →
          (assocGet mdia.nodes k).isSome = true ∨ p = Json.str k)
    ∧ (∀ (objects : List (String × Json)) (mdia : MermaidDiagram) (s : String)
          (m' : MermaidDiagram),
        ensureParent objects mdia (Json.str s) = .ok m' →
        (Json.str s).truthy = true →
        (lookupD objects s).isSome = true →
        (assocGet m'.nodes s).isSome = true)
    ∧ (∀ (ns : List (String × MNode)) (k : String) (n : MNode),
        (k, n) ∈ ns → attachKey ns n.parent = none → k ∈ rootKeys ns)
    ∧ (∀ (ns : List (String × MNode)) (j : Json), j.truthy = false →
        attachKey ns j = none) := by
  refine ⟨?_, ?_, ?_, ?_⟩
  · intro objects mdia p m' h k hk
    rcases ensureParent_cases objects mdia p m' h with he | ⟨s, name, pp, hp, he⟩
    · subst he
      exact Or.inl hk
    · subst he
      rcases eq_or_ne k s with hks | hks
      · exact Or.inr (by rw [hp, hks])
      · left
        simpa [MermaidDiagram.add_node, assocGet_assocSet, hks] using hk
  · intro objects mdia s m' h htr hsome
    by_cases hac : attachCandidate mdia (Json.str s) = true
    · rcases ensureParent_cases objects mdia (Json.str s) m' h with he | ⟨s', name, pp, hp, he⟩
      · subst he
        simpa [attachCandidate] using hac
      · subst he
        injection hp with hp
        subst hp
        simp [MermaidDiagram.add_node, assocGet_assocSet]
    · rcases hlook : lookupD objects s with _ | pData
      · rw [hlook] at hsome
        simp at hsome
      · rw [ensureParent_str] at h
        rw [if_pos (by simp [htr, hac])] at h
        simp only [hlook] at h
        split at h
        · exact Except.noConfusion h
        · split at h
          · exact Except.noConfusion h
          · split at h
            · exact Except.noConfusion h
            · injection h with h
              subst h
              simp [MermaidDiagram.add_node, assocGet_assocSet]
  · intro ns k n hmem hnone
    unfold rootKeys
    refine List.mem_map.mpr ⟨(k, n), List.mem_filter.mpr ⟨hmem, ?_⟩, rfl⟩
    simp [hnone]
  · intro ns j hj
    simp [attachKey, hj]

/-- Witness for the amended C7 theorem: ensuring parent `"P"` over an
objects map containing `"P"` materializes the node, and a node whose parent
is `None` is a forest root. -/
theorem c7_amended_witness :
    (assocGet (MermaidDiagram.add_node ⟨"", [], []⟩ "P" "Group" Json.null).nodes "P").isSome
      = true
    ∧ "P" ∈ rootKeys [("P", (⟨"P", "Group", Json.null, []⟩ : MNode))] :=
  ⟨c7_amended.2.1 [("P", Json.obj [])] ⟨"", [], []⟩ "P"
      (MermaidDiagram.add_node ⟨"", [], []⟩ "P" "Group" Json.null) rfl rfl rfl,
   c7_amended.2.2.1 [("P", ⟨"P", "Group", Json.null, []⟩)] "P"
      ⟨"P", "Group", Json.null, []⟩ (by simp) rfl⟩

theorem attachCandidate_congr {m1 m2 : MermaidDiagram} (h : m1.nodes = m2.nodes)
    (p : Json) : attachCandidate m1 p = attachCandidate m2 p := by
  cases p <;> simp [attachCandidate, h]

theorem endpointOk_congr (objects : List (String × Json)) {m1 m2 : MermaidDiagram}
    (h : m1.nodes = m2.nodes) (j : Json) :
    endpointOk objects m1 j = endpointOk objects m2 j := by
  simp [endpointOk, attachCandidate_congr h]

theorem relStep_invariant (objects : List (String × Json)) (mresp : Json → Json)
    (st : MermaidDiagram × List (Json × Json)) (rel : Json)
    (st' : MermaidDiagram × List (Json × Json))
    (h : relStep objects mresp st rel = .ok st') :
    st'.1.nodes = st.1.nodes ∧
    ∀ l ∈ st'.1.links, l ∈ st.1.links ∨
      (endpointOk objects st.1 l.source = true ∧ endpointOk objects st.1 l.target = true) := by
  unfold relStep at h
  split at h
  · exact Except.noConfusion h
  · split at h
    · exact Except.noConfusion h
    · split at h
      · exact Except.noConfusion h
      · split at h
        · exact Except.noConfusion h
        · split at h
          · exact Except.noConfusion h
          · split at h
            · exact Except.noConfusion h
            · split at h
              · rename_i hguard
                injection h with h
                subst h
                refine ⟨rfl, ?_⟩
                intro l hl
                rcases List.mem_append.mp hl with hl | hl
                · exact Or.inl hl
                · right
                  have hl' : l = ⟨_, _, _⟩ := List.mem_singleton.mp hl
                  subst hl'
                  exact ⟨(Bool.and_eq_true _ _ |>.mp hguard).1,
                         (Bool.and_eq_true _ _ |>.mp hguard).2⟩
              · injection h with h
                subst h
                exact ⟨rfl, fun l hl => Or.inl hl⟩

/-- Claim C6: a relationship whose endpoint resolves to neither a key of the
diagram objects map nor an existing node contributes no link (every link the
loop adds passed the two-sided `endpointOk` gate), and the renderer emits an
edge line only when both endpoints of a link are keys of the nodes dict. -/
theorem c6_links_gated :
    (∀ (objects : List (String × Json)) (mresp : Json → Json)
        (st : MermaidDiagram × List (Json × Json)) (rels : List Json)
        (st' : MermaidDiagram × List (Json × Json)),
        relLoop objects mresp st rels = .ok st' →
        st'.1.nodes = st.1.nodes ∧
        ∀ l ∈ st'.1.links, l ∈ st.1.links ∨
          (endpointOk objects st.1 l.source = true ∧ endpointOk objects st.1 l.target = true))
    ∧ (∀ (ns : List (String × MNode)) (l : MLink),
        (linkLine ns l).isSome = true →
          (∃ s, l.source = Json.str s ∧ (assocGet ns s).isSome = true)
          ∧ (∃ t, l.target = Json.str t ∧ (assocGet ns t).isSome = true))
    ∧ (∀ (ns : List (String × MNode)) (l : MLink),
        (∀ s, l.source = Json.str s → assocGet ns s = none) → linkLine ns l = none)
    ∧ (∀ (ns : List (String × MNode)) (l : MLink),
        (∀ t, l.target = Json.str t → assocGet ns t = none) → linkLine ns l = none) := by
  refine ⟨?_, ?_, ?_, ?_⟩
  · intro objects mresp st rels
    induction rels generalizing st with
    | nil =>
      intro st' h
      injection h with h
      subst h
      exact ⟨rfl, fun l hl => Or.inl hl⟩
    | cons rel rest ih =>
      intro st' h
      unfold relLoop at h
      split at h
      · exact Except.noConfusion h
      · rename_i st1 hstep
        obtain ⟨hn1, hl1⟩ := relStep_invariant objects mresp st rel st1 hstep
        obtain ⟨hn2, hl2⟩ := ih st1 st' h
        refine ⟨hn2.trans hn1, ?_⟩
        intro l hl
        rcases hl2 l hl with hmem | ⟨hs, ht⟩
        · rcases hl1 l hmem with hmem' | ⟨hs, ht⟩
          · exact Or.inl hmem'
          · exact Or.inr ⟨hs, ht⟩
        · refine Or.inr ⟨?_, ?_⟩
          · rw [← endpointOk_congr objects hn1]
            exact hs
          · rw [← endpointOk_congr objects hn1]
            exact ht
  · intro ns l h
    unfold linkLine at h
    split at h
    · rename_i s hsrc
      split at h
      · simp at h
      · rename_i sn hsn
        split at h
        · rename_i t htgt
          split at h
          · simp at h
          · rename_i tn htn
            exact ⟨⟨s, hsrc, by simp [hsn]⟩, ⟨t, htgt, by simp [htn]⟩⟩
        · simp at h
    · simp at h
  · intro ns l h
    unfold linkLine
    split
    · rename_i s hsrc
      rw [h s hsrc]
    · rfl
  · intro ns l h
    unfold linkLine
    split
    · rename_i s hsrc
      split
      · rfl
      · split
        · rename_i t htgt
          rw [h t htgt]
        · rfl
    · rfl

/-- Witness for claim C6 at concrete inputs: a loop over one relationship
with an unresolvable source adds nothing, and a link between existing node
keys is certified by the renderer's gate. -/
theorem c6_links_gated_witness :
    ((⟨"x", [], []⟩, ([] : List (Json × Json))) : MermaidDiagram × List (Json × Json)).1.nodes
      = (⟨"x", [], []⟩ : MermaidDiagram).nodes
    ∧ ((∃ s, (⟨Json.str "a", Json.str "a", Json.null⟩ : MLink).source = Json.str s
          ∧ (assocGet [("a", (⟨"a", "x", Json.null, []⟩ : MNode))] s).isSome = true)
       ∧ (∃ t, (⟨Json.str "a", Json.str "a", Json.null⟩ : MLink).target = Json.str t
          ∧ (assocGet [("a", (⟨"a", "x", Json.null, []⟩ : MNode))] t).isSome = true)) :=
  ⟨(c6_links_gated.1 [("b", Json.null)] (fun _ => Json.null) (⟨"x", [], []⟩, [])
      [Json.obj [("sourceId", Json.str "zz"), ("targetId", Json.str "b")]]
      (⟨"x", [], []⟩, []) rfl).1,
   c6_links_gated.2.1 [("a", ⟨"a", "x", Json.null, []⟩)]
      ⟨Json.str "a", Json.str "a", Json.null⟩ rfl⟩

/-- A connection qualifies for synthesis when both its endpoint model ids are
among the diagram's model ids (line 395; line 407's extra disjunction cannot
reject a connection that reached it). -/
def connQualifies (d2m : List (String × Json)) (conn : Json) : Bool :=
  match conn with
  | .obj kvs =>
    memJ (connSource kvs) (d2m.map Prod.snd) && memJ (connTarget kvs) (d2m.map Prod.snd)
  | _ => false

def connSynth (d2m : List (String × Json)) (conn : Json) : Json :=
  match conn with
  | .obj kvs => synthRel d2m kvs
  | _ => Json.null

theorem memJ_filter_ne_nil (d2m : List (String × Json)) (j : Json)
    (h : memJ j (d2m.map Prod.snd) = true) :
    (d2m.filter (fun kv => Json.beq kv.2 j)).map Prod.fst ≠ [] := by
  induction d2m with
  | nil => simp [memJ] at h
  | cons hd tl ih =>
    obtain ⟨k, v⟩ := hd
    cases hb : Json.beq v j with
    | true => simp [hb]
    | false =>
      have h' : memJ j (tl.map Prod.snd) = true := by
        simpa [memJ, hb] using h
      simpa [hb] using ih h'

theorem connSource_eq (kvs : List (String × Json)) :
    jor ((lookupD kvs "originId").getD Json.null) ((lookupD kvs "sourceId").getD Json.null)
      = connSource kvs := rfl

theorem connTarget_eq (kvs : List (String × Json)) :
    jor ((lookupD kvs "targetId").getD Json.null) ((lookupD kvs "destinationId").getD Json.null)
      = connTarget kvs := rfl

theorem connStep_eq (diaId : String) (d2m : List (String × Json))
    (kvs : List (String × Json)) (xs : List Json)
    (hdiag : ∀ v, lookupD kvs "diagrams" = some v → v.isObj) :
    connStep diaId d2m (d2m.map Prod.snd) (Json.arr xs) (Json.obj kvs) =
      .ok (if connQualifies d2m (Json.obj kvs)
           then Json.arr (xs ++ [synthRel d2m kvs])
           else Json.arr xs) := by
  cases hq : connQualifies d2m (Json.obj kvs) with
  | false =>
    have hq' : (memJ (connSource kvs) (d2m.map Prod.snd)
        && memJ (connTarget kvs) (d2m.map Prod.snd)) = false := by
      simpa [connQualifies] using hq
    simp only [connStep, pyGetD, connSource_eq, connTarget_eq]
    rw [hq']
    simp
  | true =>
    have hq' : memJ (connSource kvs) (d2m.map Prod.snd) = true ∧
        memJ (connTarget kvs) (d2m.map Prod.snd) = true := by
      have hqq := hq
      simp only [connQualifies, Bool.and_eq_true] at hqq
      exact hqq
    have hsrc := memJ_filter_ne_nil d2m (connSource kvs) hq'.1
    have htgt := memJ_filter_ne_nil d2m (connTarget kvs) hq'.2
    have hdval : ∃ dkvs, (lookupD kvs "diagrams").getD (Json.obj []) = Json.obj dkvs := by
      cases hd : lookupD kvs "diagrams" with
      | none => exact ⟨[], rfl⟩
      | some v =>
        obtain ⟨dkvs, hv⟩ := (isObj_iff v).mp (hdiag v hd)
        exact ⟨dkvs, by simp [hv]⟩
    obtain ⟨dkvs, hdval⟩ := hdval
    rcases hfs : (d2m.filter (fun kv => Json.beq kv.2 (connSource kvs))).map Prod.fst with
      _ | ⟨ks, rests⟩
    · exact absurd hfs hsrc
    · rcases hft : (d2m.filter (fun kv => Json.beq kv.2 (connTarget kvs))).map Prod.fst with
        _ | ⟨kt, restt⟩
      · exact absurd hft htgt
      · simp only [connStep, pyGetD, connSource_eq, connTarget_eq]
        rw [hq'.1, hq'.2, hdval, hfs, hft]
        simp [hq]

theorem connLoop_eq (diaId : String) (d2m : List (String × Json)) :
    ∀ (conns : List Json) (xs : List Json),
      (∀ conn ∈ conns, (∃ kvs, conn = Json.obj kvs) ∧
        ∀ v, conn.lookup "diagrams" = some v → v.isObj) →
      connLoop diaId d2m (d2m.map Prod.snd) (Json.arr xs) conns =
        .ok (Json.arr (xs ++ (conns.filter (connQualifies d2m)).map (connSynth d2m))) := by
  intro conns
  induction conns with
  | nil => intro xs _; simp [connLoop]
  | cons conn rest ih =>
    intro xs hc
    obtain ⟨⟨kvs, hkv⟩, hdiag⟩ := hc conn (List.mem_cons_self conn rest)
    subst hkv
    have hdiag' : ∀ v, lookupD kvs "diagrams" = some v → v.isObj := by
      intro v hv
      exact hdiag v (by simpa [Json.lookup] using hv)
    have hrest : ∀ c ∈ rest, (∃ kvs, c = Json.obj kvs) ∧
        ∀ v, c.lookup "diagrams" = some v → v.isObj :=
      fun c hcm => hc c (List.mem_cons_of_mem _ hcm)
    cases hq : connQualifies d2m (Json.obj kvs) with
    | false =>
      have hstep := connStep_eq diaId d2m kvs xs hdiag'
      rw [hq] at hstep
      simp only [Bool.false_eq_true, if_false] at hstep
      simp only [connLoop, hstep]
      rw [ih xs hrest]
      simp [List.filter_cons, hq]
    | true =>
      have hstep := connStep_eq diaId d2m kvs xs hdiag'
      rw [hq] at hstep
      simp only [if_true] at hstep
      simp only [connLoop, hstep]
      rw [ih (xs ++ [synthRel d2m kvs]) hrest]
      simp [List.filter_cons, hq, connSynth]

/-- Claim C4: the model-connection fallback runs only when the resolver
yielded zero (falsy) relationships — a truthy relationships value passes
through untouched with no connections fetch — and it then synthesizes exactly
one relationship per global connection whose origin and destination model ids
both belong to the diagram's model-id set, with or without the per-diagram
visibility flag (line 407's disjunction repeats the endpoint test, so flagged
and unflagged connections are accepted alike). -/
theorem c4_inference :
    (∀ (diaId : String) (d2m : List (String × Json)) (rel : Json) (resp : HttpResp),
        rel.truthy = true → relationshipFallback diaId d2m rel resp = .ok (rel, 0))
    ∧ (∀ (diaId : String) (d2m : List (String × Json)) (conns : List Json),
        (∀ conn ∈ conns, (∃ kvs, conn = Json.obj kvs) ∧
          ∀ v, conn.lookup "diagrams" = some v → v.isObj) →
        relationshipFallback diaId d2m (Json.arr [])
            ⟨200, Json.obj [("modelConnections", Json.arr conns)]⟩ =
          .ok (Json.arr ((conns.filter (connQualifies d2m)).map (connSynth d2m)), 1)) := by
  constructor
  · intro diaId d2m rel resp h
    simp [relationshipFallback, h]
  · intro diaId d2m conns hc
    have hloop := connLoop_eq diaId d2m conns [] hc
    simp only [List.nil_append] at hloop
    simp [relationshipFallback, Json.truthy, pyGetD, pyIterate, lookupD, hloop]

def c4d2m : List (String × Json) := [("x", Json.str "mx"), ("y", Json.str "my")]

def c4conns : List Json :=
  [Json.obj [("originId", Json.str "mx"), ("targetId", Json.str "my"),
             ("name", Json.str "L"), ("id", Json.str "c1")],
   Json.obj [("originId", Json.str "zz")]]

/-- Witness for claim C4: one qualifying and one non-qualifying connection;
and a truthy relationships value suppressing the fallback entirely. -/
theorem c4_inference_witness :
    relationshipFallback "d" c4d2m (Json.arr [])
        ⟨200, Json.obj [("modelConnections", Json.arr c4conns)]⟩ =
      .ok (Json.arr ((c4conns.filter (connQualifies c4d2m)).map (connSynth c4d2m)), 1)
    ∧ relationshipFallback "d" c4d2m (Json.arr [Json.null]) ⟨200, Json.obj []⟩ =
      .ok (Json.arr [Json.null], 0) :=
  ⟨c4_inference.2 "d" c4d2m c4conns
    (by
      intro conn hconn
      simp only [c4conns, List.mem_cons, List.not_mem_nil, or_false] at hconn
      rcases hconn with rfl | rfl
      · exact ⟨⟨_, rfl⟩, by intro v hv; simp [Json.lookup, lookupD] at hv⟩
      · exact ⟨⟨_, rfl⟩, by intro v hv; simp [Json.lookup, lookupD] at hv⟩),
   c4_inference.1 "d" c4d2m (Json.arr [Json.null]) ⟨200, Json.obj []⟩ rfl⟩

/-- The sort key of a step item (total form, agreeing with `stepIndex`
whenever the latter succeeds). -/
def stepIdxKey (kv : String × Json) : Int :=
  match kv.2.lookup "index" with
  | some (.num n) => n
  | _ => 0

theorem stepIndex_eq_key (kv : String × Json) (i : Int) (h : stepIndex kv = .ok i) :
    stepIdxKey kv = i := by
  unfold stepIndex at h
  unfold stepIdxKey
  cases hv : kv.2 with
  | obj kvs =>
    rw [hv] at h
    cases hl : lookupD kvs "index" with
    | none => simp [pyIndex, hl] at h
    | some v =>
      cases v with
      | num n =>
        simp [pyIndex, hl] at h
        simp [Json.lookup, hl, h]
      | null => simp [pyIndex, hl] at h
      | bool b => simp [pyIndex, hl] at h
      | str s => simp [pyIndex, hl] at h
      | arr xs => simp [pyIndex, hl] at h
      | obj kvs2 => simp [pyIndex, hl] at h
  | null => simp [pyIndex, hv] at h
  | bool b => simp [pyIndex, hv] at h
  | num n => simp [pyIndex, hv] at h
  | str s => simp [pyIndex, hv] at h
  | arr xs => simp [pyIndex, hv] at h

theorem stepIdxList_ok (steps : List (String × Json)) :
    ∀ wi, stepIdxList steps = .ok wi →
      wi.map Prod.fst = steps ∧ ∀ x ∈ wi, x.2 = stepIdxKey x.1 := by
  induction steps with
  | nil =>
    intro wi h
    injection h with h
    subst h
    exact ⟨rfl, by simp⟩
  | cons kv rest ih =>
    intro wi h
    unfold stepIdxList at h
    split at h
    · exact Except.noConfusion h
    · rename_i i hi
      split at h
      · exact Except.noConfusion h
      · rename_i l hl
        injection h with h
        subst h
        obtain ⟨hmap, hkey⟩ := ih l hl
        refine ⟨by simp [hmap], ?_⟩
        intro x hx
        rcases List.mem_cons.mp hx with rfl | hx
        · exact (stepIndex_eq_key kv i hi).symm
        · exact hkey x hx

theorem insertByIdx_perm (x : (String × Json) × Int) (l : List ((String × Json) × Int)) :
    (insertByIdx x l).Perm (x :: l) := by
  induction l with
  | nil => exact List.Perm.refl _
  | cons y ys ih =>
    by_cases h : y.2 ≤ x.2
    · simp only [insertByIdx, h, if_true]
      exact (ih.cons y).trans (List.Perm.swap x y ys)
    · simp only [insertByIdx, h, if_false]
      exact List.Perm.refl _

theorem insertAll_perm (l : List ((String × Json) × Int)) :
    ∀ acc, (insertAll acc l).Perm (acc ++ l) := by
  induction l with
  | nil => intro acc; simp [insertAll]
  | cons x xs ih =>
    intro acc
    have h1 := ih (insertByIdx x acc)
    have h2 : (insertByIdx x acc ++ xs).Perm ((x :: acc) ++ xs) :=
      (insertByIdx_perm x acc).append_right xs
    have h3 : ((x :: acc) ++ xs).Perm (acc ++ x :: xs) := by
      simpa using List.perm_middle.symm
    exact (h1.trans h2).trans h3

theorem insertByIdx_sorted (x : (String × Json) × Int) (l : List ((String × Json) × Int))
    (h : List.Pairwise (fun a b => a.2 ≤ b.2) l) :
    List.Pairwise (fun a b => a.2 ≤ b.2) (insertByIdx x l) := by
  induction l with
  | nil => simp [insertByIdx]
  | cons y ys ih =>
    obtain ⟨hy, hys⟩ := List.pairwise_cons.mp h
    by_cases hle : y.2 ≤ x.2
    · simp only [insertByIdx, hle, if_true]
      refine List.pairwise_cons.mpr ⟨?_, ih hys⟩
      intro b hb
      rcases List.mem_cons.mp ((insertByIdx_perm x ys).mem_iff.mp hb) with rfl | hb
      · exact hle
      · exact hy b hb
    · simp only [insertByIdx, hle, if_false]
      refine List.pairwise_cons.mpr ⟨?_, h⟩
      intro b hb
      rcases List.mem_cons.mp hb with rfl | hb
      · exact le_of_not_le hle
      · exact le_trans (le_of_not_le hle) (hy b hb)

theorem insertAll_sorted (l : List ((String × Json) × Int)) :
    ∀ acc, List.Pairwise (fun a b => a.2 ≤ b.2) acc →
      List.Pairwise (fun a b => a.2 ≤ b.2) (insertAll acc l) := by
  induction l with
  | nil => intro acc h; exact h
  | cons x xs ih => intro acc h; exact ih _ (insertByIdx_sorted x acc h)

theorem add_participant_pairwise (s : MermaidSequence) (p : SequenceParticipant)
    (h : List.Pairwise (fun a b => Json.beq a.1 b.1 = false) s.participants) :
    List.Pairwise (fun a b => Json.beq a.1 b.1 = false)
      (s.add_participant p).participants := by
  unfold MermaidSequence.add_participant
  split
  · exact h
  · rename_i hany
    refine List.pairwise_append.mpr ⟨h, List.pairwise_singleton _ _, ?_⟩
    intro a ha b hb
    rcases List.mem_singleton.mp hb with rfl
    have hall : ∀ x ∈ s.participants, ¬(Json.beq x.1 p.id = true) := by
      simpa [List.any_eq_true] using hany
    simpa using hall a ha

theorem flowStep_pairwise (diaObjects : Json) (mresp : Json → Json)
    (st : MermaidSequence × List (Json × Json)) (kv : String × Json)
    (st' : MermaidSequence × List (Json × Json))
    (h : flowStep diaObjects mresp st kv = .ok st')
    (hp : List.Pairwise (fun a b => Json.beq a.1 b.1 = false) st.1.participants) :
    List.Pairwise (fun a b => Json.beq a.1 b.1 = false) st'.1.participants := by
  unfold flowStep at h
  split at h
  · exact Except.noConfusion h
  · split at h
    · injection h with h
      subst h
      exact hp
    · split at h
      · exact Except.noConfusion h
      · split at h
        · exact Except.noConfusion h
        · split at h
          · exact Except.noConfusion h
          · split at h
            · exact Except.noConfusion h
            · split at h
              · exact Except.noConfusion h
              · split at h
                · exact Except.noConfusion h
                · -- the participant-building match succeeded
                  split at h
                  · exact Except.noConfusion h
                  · rename_i x9 tarPid seq2 hseq2
                    split at h
                    · exact Except.noConfusion h
                    · split at h
                      · exact Except.noConfusion h
                      · split at h
                        · exact Except.noConfusion h
                        · injection h with h
                          subst h
                          -- adding a sequence step leaves the participants;
                          -- seq2 is one or two add_participant applications
                          split at hseq2
                          · injection hseq2 with h12
                            injection h12 with h1 h2
                            subst h2
                            exact add_participant_pairwise _ _ hp
                          · split at hseq2
                            · exact Except.noConfusion hseq2
                            · split at hseq2
                              · exact Except.noConfusion hseq2
                              · injection hseq2 with h12
                                injection h12 with h1 h2
                                subst h2
                                exact add_participant_pairwise _ _
                                  (add_participant_pairwise _ _ hp)

theorem flowLoop_pairwise (diaObjects : Json) (mresp : Json → Json) :
    ∀ (l : List (String × Json)) (st st' : MermaidSequence × List (Json × Json)),
      flowLoop diaObjects mresp st l = .ok st' →
      List.Pairwise (fun a b => Json.beq a.1 b.1 = false) st.1.participants →
      List.Pairwise (fun a b => Json.beq a.1 b.1 = false) st'.1.participants := by
  intro l
  induction l with
  | nil =>
    intro st st' h hp
    injection h with h
    subst h
    exact hp
  | cons kv rest ih =>
    intro st st' h hp
    unfold flowLoop at h
    split at h
    · exact Except.noConfusion h
    · rename_i st1 hstep
      exact ih st1 st' h (flowStep_pairwise diaObjects mresp st kv st1 hstep hp)

/-- Claim C8's concrete flow: the steps dict lists index 1 before index 0,
so the declared-index sort is exercised; `Y` occurs as target of the first
emitted step and origin of the second, exercising deduplication. -/
def c8steps : List (String × Json) :=
  [("s1", Json.obj [("id", Json.str "i1"), ("type", Json.str "t"),
      ("description", Json.str "process"), ("originId", Json.str "Y"),
      ("targetId", Json.null), ("index", Json.num 1)]),
   ("s0", Json.obj [("id", Json.str "i0"), ("type", Json.str "t"),
      ("description", Json.str "call"), ("originId", Json.str "X"),
      ("targetId", Json.str "Y"), ("index", Json.num 0)])]

def c8diaObjects : Json :=
  Json.obj [("X", Json.obj [("modelId", Json.str "mX")]),
            ("Y", Json.obj [("modelId", Json.str "mY")])]

def c8resp : Json → Json := fun j =>
  match j with
  | .str "mX" => Json.obj [("modelObject",
      Json.obj [("id", Json.str "X"), ("name", Json.str "NX")])]
  | .str "mY" => Json.obj [("modelObject",
      Json.obj [("id", Json.str "Y"), ("name", Json.str "NY")])]
  | _ => Json.null

def c8expected : String :=
  "sequenceDiagram\n\tautonumber\n\tparticipant X as NX\n\tparticipant Y as NY\n"
    ++ "\tX ->> Y: call\n\tY -->> Y: process\n"

/-- Claim C8: participants are deduplicated by id (the built participant
list is pairwise distinct under the dynamic equality used by the dict),
the loop consumes the steps sorted ascending by their declared numeric index
(a permutation of the input), and on the two-step example flow the renderer
emits exactly the two participant declarations followed by the labeled
`X ->> Y` arrow and the self-arrow on `Y`, in that order. -/
theorem c8_sequence_renderer :
    (∀ (flowName : Json) (steps : List (String × Json)) (diaObjects : Json)
        (mresp : Json → Json) (mcache : List (Json × Json))
        (seq : MermaidSequence) (mc : List (Json × Json)),
        buildFlowSequence flowName steps diaObjects mresp mcache = .ok (seq, mc) →
        List.Pairwise (fun a b => Json.beq a.1 b.1 = false) seq.participants)
    ∧ (∀ (steps l : List (String × Json)),
        sortStepsByIndex steps = .ok l →
        l.Perm steps ∧ List.Pairwise (fun a b => stepIdxKey a ≤ stepIdxKey b) l)
    ∧ (buildFlowSequence (Json.str "F") c8steps c8diaObjects c8resp []).map
        (fun r => r.1.generate) = .ok c8expected := by
  refine ⟨?_, ?_, rfl⟩
  · intro flowName steps diaObjects mresp mcache seq mc h
    unfold buildFlowSequence at h
    split at h
    · exact Except.noConfusion h
    · rename_i sorted hsort
      have := flowLoop_pairwise diaObjects mresp sorted
        (⟨flowName, [], []⟩, mcache) (seq, mc) h (by simp)
      exact this
  · intro steps l h
    unfold sortStepsByIndex at h
    split at h
    · exact Except.noConfusion h
    · rename_i wi hwi
      injection h with h
      subst h
      obtain ⟨hmap, hkey⟩ := stepIdxList_ok steps wi hwi
      have hperm : (insertAll [] wi).Perm wi := by
        simpa using insertAll_perm wi []
      constructor
      · rw [← hmap]
        exact hperm.map Prod.fst
      · have hsorted : List.Pairwise (fun a b => a.2 ≤ b.2) (insertAll [] wi) :=
          insertAll_sorted wi [] (List.Pairwise.nil)
        have hmem : ∀ x ∈ insertAll [] wi, x.2 = stepIdxKey x.1 := by
          intro x hx
          exact hkey x (hperm.mem_iff.mp hx)
        rw [List.pairwise_map]
        refine hsorted.imp_of_mem ?_
        intro a b ha hb hab
        rw [← hmem a ha, ← hmem b hb]
        exact hab

def c8seq : MermaidSequence :=
  match buildFlowSequence (Json.str "F") c8steps c8diaObjects c8resp [] with
  | .ok st => st.1
  | .error _ => ⟨Json.null, [], []⟩

def c8mc : List (Json × Json) :=
  match buildFlowSequence (Json.str "F") c8steps c8diaObjects c8resp [] with
  | .ok st => st.2
  | .error _ => []

def c8sorted : List (String × Json) :=
  match sortStepsByIndex c8steps with
  | .ok l => l
  | .error _ => []

/-- Witness for claim C8: the participant list built for the concrete flow is
duplicate-free, and its sorted step list is a permutation of the input. -/
theorem c8_sequence_renderer_witness :
    List.Pairwise (fun a b => Json.beq a.1 b.1 = false) c8seq.participants
    ∧ c8sorted.Perm c8steps :=
  ⟨c8_sequence_renderer.1 (Json.str "F") c8steps c8diaObjects c8resp [] c8seq c8mc rfl,
   (c8_sequence_renderer.2.1 c8steps c8sorted rfl).1⟩

end IcePanel
